import Mathlib

/-!
# Telemetry service, MinIO ingestion path

Shallow embedding of `pkg/telemetryservice/minio/minio.go`:
`BindMinIOServiceHandler`, `injectSecret` and `uploadObject`.

Go code is embedded by explicit state passing.  The state (`World`) holds the
local filesystem and the trace of calls made to the external collaborators
(secret store, client factory, object store).  The collaborators themselves,
and the failures the operating system may inject, are gathered in `Env`.
A Go run-time panic (nil dereference) is the `fault` outcome.

Logging calls do not touch the modelled state; only the evaluation of their
arguments is modelled, because `err.Error()` on a nil `err` panics.
-/

namespace Shifu.Minio

/-- Go `[]byte`. -/
abbrev Bytes := List UInt8

/-- Result of running a piece of Go code: a normal return, or a run-time panic. -/
inductive Outcome (α : Type) where
  | ret : α → Outcome α
  | fault : String → Outcome α
deriving DecidableEq, Repr

/-- Message of the Go run-time panic raised by a nil dereference. -/
def nilDeref : String := "runtime error: invalid memory address or nil pointer dereference"

/-! ## Data model -/

/-- Modelled from the spec: the type declaration `v1alpha1.MinIOSetting` is not part of the
sources at hand; every field is a `*string`, absent when nil. -/
structure MinIOSetting where
  Secret : Option String
  APIId : Option String
  APIKey : Option String
  EndPoint : Option String
  Bucket : Option String
  FileName : Option String
  FileExtension : Option String
deriving DecidableEq, Repr

/-- Modelled from the spec: the type declaration `v1alpha1.TelemetryRequest` is not part of the
sources at hand; a pointer to the settings plus the raw payload. -/
structure TelemetryRequest where
  MinIOSetting : Option MinIOSetting
  RawData : Bytes
deriving DecidableEq, Repr

/-- Go `map[string]string`, as returned by `utils.GetSecret`. -/
abbrev Secret := String → Option String

/-- Modelled from the spec: the constant `deviceshifubase.UsernameSecretField` is declared
outside the sources at hand; the spec and the tests give the field name "username". -/
def UsernameSecretField : String := "username"

/-- Modelled from the spec: the constant `deviceshifubase.PasswordSecretField` is declared
outside the sources at hand; the spec and the tests give the field name "password". -/
def PasswordSecretField : String := "password"

/-- The value `*minio.Client` built by `minio.New`. -/
structure Client where
  endpoint : String
  accessId : String
  accessKey : String
deriving DecidableEq, Repr

/-- Arguments received by one `client.PutObject` call.  `stream` is what the reader handed
to the call yields from the position it has at that moment. -/
structure PutCall where
  bucket : String
  key : String
  stream : Bytes
  size : Nat
  contentType : String
deriving DecidableEq, Repr

/-- Calls made to the external collaborators, in order. -/
inductive Event where
  | getSecret (name : String)
  | newClient (endpoint id key : String)
  | putObject (c : PutCall)
deriving DecidableEq, Repr

/-- An open `*os.File`: the path it was opened at and its read/write position. -/
structure File where
  path : String
  pos : Nat
deriving DecidableEq, Repr

/-- Mutable state: regular files by absolute path, and the collaborator trace. -/
structure World where
  files : String → Option Bytes
  trace : List Event

/-- Everything outside the program: process settings, the random source, failures injected
by the operating system or the object store, and the external functions. -/
structure Env where
  tempDir : String
  cwd : String
  rand : Nat → Nat
  openFault : Option String
  writeFault : Option (Nat × String)
  statFault : Option String
  putFault : Option String
  closeFault : Option String
  removeFault : Option String
  getSecret : String → Except String Secret
  newClient : String → String → String → Except String Client
  unmarshal : Bytes → Except String TelemetryRequest

/-- The HTTP response recorder: `status` is `none` until a header is written. -/
structure Response where
  status : Option Nat
  body : String
deriving DecidableEq, Repr

/-! ## Library operations (Go `os`, `net/http`) -/

/-- Go `os.IsPathSeparator` on Unix. -/
def isPathSeparator (c : Char) : Bool := c == '/'

/-- Go `os.joinPath`. -/
def joinPath (dir name : String) : String :=
  match dir.data.getLast? with
  | some c => if isPathSeparator c then dir ++ name else dir ++ "/" ++ name
  | none => dir ++ "/" ++ name

/-- Split of a list at its last `*`, as `os.prefixAndSuffix` does for a pattern. -/
def splitLastStar : List Char → Option (List Char × List Char)
  | [] => none
  | c :: cs =>
    match splitLastStar cs with
    | some (p, s) => some (c :: p, s)
    | none => if c = '*' then some ([], cs) else none

/-- Go `os.prefixAndSuffix`. -/
def prefixAndSuffix (pattern : String) : Except String (String × String) :=
  if pattern.data.any isPathSeparator then
    .error "pattern contains path separator"
  else
    match splitLastStar pattern.data with
    | some (p, s) => .ok (String.mk p, String.mk s)
    | none => .ok (pattern, "")

/-- Go `os.nextRandom`: decimal rendering of a 32-bit random number. -/
def nextRandom (r : Nat) : String := Nat.repr (r % 2 ^ 32)

/-- The retry loop of `os.CreateTemp`: open exclusively, retry on an existing name. -/
def createTempLoop (env : Env) (w : World) (pre suf : String) :
    Nat → Nat → Except String (World × File)
  | 0, _ => .error ("createtemp " ++ pre ++ "*" ++ suf ++ ": file exists")
  | fuel + 1, attempt =>
    let name := pre ++ nextRandom (env.rand attempt) ++ suf
    match w.files name with
    | some _ => createTempLoop env w pre suf fuel (attempt + 1)
    | none =>
      match env.openFault with
      | some e => .error ("open " ++ name ++ ": " ++ e)
      | none =>
        .ok ({ w with files := fun p => if p = name then some [] else w.files p },
             { path := name, pos := 0 })

/-- Go `os.CreateTemp`. -/
def osCreateTemp (env : Env) (w : World) (dir pattern : String) : Except String (World × File) :=
  let dir := if dir = "" then env.tempDir else dir
  match prefixAndSuffix pattern with
  | .error e => .error ("createtemp " ++ pattern ++ ": " ++ e)
  | .ok (pre, suf) => createTempLoop env w (joinPath dir pre) suf 10000 0

/-- Bytes of a file after writing `b` at offset `pos`. -/
def writeAt (old : Bytes) (pos : Nat) (b : Bytes) : Bytes :=
  (old ++ List.replicate (pos - old.length) 0).take pos ++ b ++ old.drop (pos + b.length)

/-- Go `(*os.File).Write`: writes at the current position and advances it.  A failing write
stores the bytes written before the failure. -/
def osWrite (env : Env) (w : World) (f : File) (b : Bytes) : World × File × Option String :=
  let written := match env.writeFault with
    | some (n, _) => b.take n
    | none => b
  let old := (w.files f.path).getD []
  let new := writeAt old f.pos written
  ({ w with files := fun p => if p = f.path then some new else w.files p },
   { f with pos := f.pos + written.length },
   env.writeFault.map Prod.snd)

/-- Go `(*os.File).Stat` followed by `Size()`. -/
def osStat (env : Env) (w : World) (f : File) : Except String Nat :=
  match env.statFault with
  | some e => .error e
  | none => .ok ((w.files f.path).getD []).length

/-- Bytes a reader over the file yields from its current position. -/
def readable (w : World) (f : File) : Bytes :=
  ((w.files f.path).getD []).drop f.pos

/-- Path denoted by `name` for a system call of a process whose working directory is `cwd`. -/
def resolve (cwd name : String) : String :=
  match name.data with
  | c :: _ => if isPathSeparator c then name else joinPath cwd name
  | [] => name

/-- Go `os.Remove`: unlinks the file the name denotes; fails when there is none. -/
def osRemove (env : Env) (w : World) (name : String) : World × Option String :=
  match env.removeFault with
  | some e => (w, some ("remove " ++ name ++ ": " ++ e))
  | none =>
    if name = "" then (w, some "remove : no such file or directory")
    else
      match w.files (resolve env.cwd name) with
      | none => (w, some ("remove " ++ name ++ ": no such file or directory"))
      | some _ =>
        ({ w with files := fun p => if p = resolve env.cwd name then none else w.files p }, none)

/-- Go `(*minio.Client).PutObject`: the call is recorded; its result is the store's. -/
def putObject (env : Env) (w : World) (c : PutCall) : World × Option String :=
  ({ w with trace := w.trace ++ [Event.putObject c] }, env.putFault)

/-- Go `http.Error`: writes the status line and the message followed by a newline. -/
def httpError (r : Response) (msg : String) (code : Nat) : Response :=
  { status := match r.status with
      | some s => some s
      | none => some code,
    body := r.body ++ msg ++ "\n" }

/-- Go `http.StatusBadRequest`. -/
def StatusBadRequest : Nat := 400

/-! ## The program -/

/-- The deferred closure of `uploadObject` (lines 94-101), called with `name = fileName`;
`err` is the value the enclosing `err` variable holds when the closure runs.  The result
is the world afterwards and the panic raised, if any. -/
def uploadObjectDeferred (env : Env) (w : World) (name : String) (err : Option String) :
    World × Option String :=
  let closeFaulted : Bool :=
    match env.closeFault, err with
    | some _, none => true
    | _, _ => false
  if closeFaulted then (w, some nilDeref)
  else
    match osRemove env w name with
    | (w', none) => (w', none)
    | (w', some _) =>
      match err with
      | none => (w', some nilDeref)
      | some _ => (w', none)

/-- Return from `uploadObject` with `result` once the deferred closure has run. -/
def uploadObjectReturn (env : Env) (w : World) (fileName : String) (err : Option String)
    (result : Option String) : World × Outcome (Option String) :=
  match uploadObjectDeferred env w fileName err with
  | (w', none) => (w', .ret result)
  | (w', some m) => (w', .fault m)

/-- `uploadObject` (lines 88-120).  The result is Go's `error`: `none` is nil. -/
def uploadObject (env : Env) (w : World) (_client : Client) (bucket fileName : String)
    (content : Bytes) : World × Outcome (Option String) :=
  match osCreateTemp env w "" fileName with
  | .error e => (w, .ret (some ("Fail to create temp file:" ++ e)))
  | .ok (w1, file) =>
    match osWrite env w1 file content with
    | (w2, _, some e) =>
      uploadObjectReturn env w2 fileName (some e) (some ("Fail to load file content:" ++ e))
    | (w2, file2, none) =>
      match osStat env w2 file2 with
      | .error e =>
        uploadObjectReturn env w2 fileName (some e) (some ("Fail to get file stat" ++ e))
      | .ok size =>
        match putObject env w2
            { bucket := bucket, key := fileName, stream := readable w2 file2, size := size,
              contentType := "application/octet-stream" } with
        | (w3, some e) =>
          uploadObjectReturn env w3 fileName (some e) (some ("Upload object error:" ++ e))
        | (w3, none) => uploadObjectReturn env w3 fileName none none

/-- `injectSecret` (lines 57-86): the settings pointer is `none` when nil; the result is the
world and the settings after the call. -/
def injectSecret (env : Env) (w : World) (setting : Option MinIOSetting) :
    World × Option MinIOSetting :=
  match setting with
  | none => (w, none)
  | some s =>
    match s.Secret with
    | none => (w, some s)
    | some name =>
      let w1 := { w with trace := w.trace ++ [Event.getSecret name] }
      match env.getSecret name with
      | .error _ => (w1, some s)
      | .ok secret =>
        match secret UsernameSecretField with
        | none => (w1, some s)
        | some id =>
          let s1 := { s with APIId := some id }
          match secret PasswordSecretField with
          | none => (w1, some s1)
          | some key => (w1, some { s1 with APIKey := some key })

/-- Dereference of a Go pointer. -/
def deref {α : Type} : Option α → Except String α
  | some a => .ok a
  | none => .error nilDeref

/-- `BindMinIOServiceHandler` (lines 18-55).  `body` is the result of `io.ReadAll(r.Body)`. -/
def BindMinIOServiceHandler (env : Env) (w : World) (resp : Response)
    (body : Except String Bytes) : World × Response × Outcome Unit :=
  match body with
  | .error e => (w, httpError resp e StatusBadRequest, .ret ())
  | .ok body =>
    match env.unmarshal body with
    | .error _ => (w, httpError resp "Unexpected end of JSON input" StatusBadRequest, .ret ())
    | .ok request =>
      match injectSecret env w request.MinIOSetting with
      | (w1, setting) =>
        let args : Except String (String × String × String) := do
          let s ← deref setting
          let endPoint ← deref s.EndPoint
          let id ← deref s.APIId
          let key ← deref s.APIKey
          pure (endPoint, id, key)
        match args with
        | .error m => (w1, resp, .fault m)
        | .ok (endPoint, id, key) =>
          let w2 := { w1 with trace := w1.trace ++ [Event.newClient endPoint id key] }
          match env.newClient endPoint id key with
          | .error _ => (w2, httpError resp "Fail to create client" StatusBadRequest, .ret ())
          | .ok client =>
            let args2 : Except String (String × String) := do
              let s ← deref setting
              let bucket ← deref s.Bucket
              let fileName ← deref s.FileName
              pure (bucket, fileName)
            match args2 with
            | .error m => (w2, resp, .fault m)
            | .ok (bucket, fileName) =>
              match uploadObject env w2 client bucket fileName request.RawData with
              | (w3, .fault m) => (w3, resp, .fault m)
              | (w3, .ret none) => (w3, resp, .ret ())
              | (w3, .ret (some e)) => (w3, httpError resp e StatusBadRequest, .ret ())

/-! ## Sample inputs -/

/-- A filesystem holding the single file `/work/report.bin`. -/
def sampleFiles : String → Option Bytes :=
  fun p => if p = "/work/report.bin" then some [1, 2, 3] else none

/-- A world with one unrelated file and no collaborator call yet. -/
def sampleWorld : World := { files := sampleFiles, trace := [] }

/-- A secret store knowing one secret with the given fields. -/
def sampleStore (fields : Secret) : String → Except String Secret :=
  fun n => if n = "test-secret" then .ok fields else .error "secrets not found"

/-- An environment in which nothing fails. -/
def sampleEnv : Env :=
  { tempDir := "/tmp", cwd := "/work", rand := fun _ => 42,
    openFault := none, writeFault := none, statFault := none, putFault := none,
    closeFault := none, removeFault := none,
    getSecret := sampleStore (fun _ => none),
    newClient := fun e i k => .ok { endpoint := e, accessId := i, accessKey := k },
    unmarshal := fun b =>
      if b = [123, 125] then .ok { MinIOSetting := none, RawData := [] }
      else .error "unexpected end of JSON input" }

/-- The client used in the examples. -/
def sampleClient : Client := { endpoint := "test-end-point", accessId := "id", accessKey := "key" }

/-! ## Failure modes of the upload pipeline -/

/-- The four steps of `uploadObject` that can fail. -/
inductive Stage where
  | create
  | write
  | stat
  | put
deriving DecidableEq, Repr

/-- The first step the environment makes fail in a run of `uploadObject`, with the
description of the underlying error; `none` when every step succeeds. -/
def firstFailure (env : Env) (w : World) (fileName : String) : Option (Stage × String) :=
  match osCreateTemp env w "" fileName with
  | .error e => some (Stage.create, e)
  | .ok _ =>
    match env.writeFault with
    | some (_, e) => some (Stage.write, e)
    | none =>
      match env.statFault with
      | some e => some (Stage.stat, e)
      | none =>
        match env.putFault with
        | some e => some (Stage.put, e)
        | none => none

/-- A secret holding only the "password" field. -/
def passwordOnly : Secret := fun k => if k = "password" then some "pw" else none

/-- A secret holding only the "username" field. -/
def usernameOnly : Secret := fun k => if k = "username" then some "overwrite" else none

/-- A secret holding both fields. -/
def bothFields : Secret :=
  fun k => if k = "username" then some "id1" else if k = "password" then some "key1" else none

/-- Settings that only name the secret to resolve. -/
def secretOnlySetting : MinIOSetting :=
  { Secret := some "test-secret", APIId := none, APIKey := none, EndPoint := none,
    Bucket := none, FileName := none, FileExtension := none }

/-- Settings with pre-existing credentials and a secret to resolve. -/
def presetSetting : MinIOSetting :=
  { Secret := some "test-secret", APIId := some "old-id", APIKey := some "old-key",
    EndPoint := some "test-end-point", Bucket := some "test-bucket",
    FileName := some "report.bin", FileExtension := none }

/-- Settings without a secret reference. -/
def noSecretSetting : MinIOSetting :=
  { Secret := none, APIId := none, APIKey := none, EndPoint := some "test-end-point",
    Bucket := some "test-bucket", FileName := none, FileExtension := some "test-extension" }

/-- A fresh response recorder. -/
def freshResponse : Response := { status := none, body := "" }

/-- The settings of a request that names endpoint, bucket and extension but no credentials. -/
def noCredentialRequest : TelemetryRequest :=
  { MinIOSetting := some noSecretSetting, RawData := [116, 101, 115, 116] }

/-- The settings of a request that names the bucket only. -/
def bucketOnlyRequest : TelemetryRequest :=
  { MinIOSetting := some { noSecretSetting with EndPoint := none, FileExtension := none },
    RawData := [] }

/-- An environment in which the object store refuses the put. -/
def refusingEnv : Env := { sampleEnv with putFault := some "connection refused" }

/-- The error message `uploadObject` builds for a failure at a given step. -/
def stageMessage : Stage → String → String
  | Stage.create, e => "Fail to create temp file:" ++ e
  | Stage.write, e => "Fail to load file content:" ++ e
  | Stage.stat, e => "Fail to get file stat" ++ e
  | Stage.put, e => "Upload object error:" ++ e

/-- An environment in which writing the staging file fails after one byte. -/
def diskFullEnv : Env := { sampleEnv with writeFault := some (1, "no space left on device") }

/-! ## Credential injection -/

/-- C5: when the secret reference resolves to a mapping holding "username", `injectSecret`
overwrites `APIId` with that value; `APIKey` is overwritten with the "password" value when
the mapping holds one and is left exactly as it was otherwise. -/
theorem injectSecret_username_present (env : Env) (w : World) (s : MinIOSetting)
    (name id : String) (secret : Secret)
    (hs : s.Secret = some name) (hg : env.getSecret name = .ok secret)
    (hu : secret UsernameSecretField = some id) :
    ∃ s2, (injectSecret env w (some s)).2 = some s2 ∧
      s2.APIId = some id ∧
      (∀ key, secret PasswordSecretField = some key → s2.APIKey = some key) ∧
      (secret PasswordSecretField = none → s2.APIKey = s.APIKey) ∧
      s2.Secret = s.Secret ∧ s2.EndPoint = s.EndPoint ∧ s2.Bucket = s.Bucket ∧
      s2.FileName = s.FileName ∧ s2.FileExtension = s.FileExtension := by
  cases hp : secret PasswordSecretField with
  | none =>
    exact ⟨{ s with APIId := some id }, by simp [injectSecret, hs, hg, hu, hp]⟩
  | some key =>
    exact ⟨{ s with APIId := some id, APIKey := some key },
      by simp [injectSecret, hs, hg, hu, hp]⟩

/-- Witness of C5: a secret with both fields overwrites pre-existing credentials. -/
theorem injectSecret_username_present_witness :
    ∃ s2, (injectSecret { sampleEnv with getSecret := sampleStore bothFields } sampleWorld
        (some presetSetting)).2 = some s2 ∧
      s2.APIId = some "id1" ∧
      (∀ key, bothFields PasswordSecretField = some key → s2.APIKey = some key) ∧
      (bothFields PasswordSecretField = none → s2.APIKey = presetSetting.APIKey) ∧
      s2.Secret = presetSetting.Secret ∧ s2.EndPoint = presetSetting.EndPoint ∧
      s2.Bucket = presetSetting.Bucket ∧ s2.FileName = presetSetting.FileName ∧
      s2.FileExtension = presetSetting.FileExtension :=
  injectSecret_username_present { sampleEnv with getSecret := sampleStore bothFields }
    sampleWorld presetSetting "test-secret" "id1" bothFields rfl rfl rfl

/-- Counterexample to C4 as stated: a resolved secret holding "password" but not "username"
does not populate `APIKey`. -/
theorem injectSecret_password_only_not_injected :
    passwordOnly PasswordSecretField = some "pw" ∧
    passwordOnly UsernameSecretField = none ∧
    (injectSecret { sampleEnv with getSecret := sampleStore passwordOnly } sampleWorld
        (some secretOnlySetting)).2 = some secretOnlySetting ∧
    secretOnlySetting.APIKey = none := by
  decide

/-- C4, amended: on a resolved secret the id is looked up first.  Without "username" the
settings are returned as they were, whatever else the secret holds; with "username" but
without "password", `APIId` is populated and `APIKey` is left as it was. -/
theorem injectSecret_fields_in_order (env : Env) (w : World) (s : MinIOSetting)
    (name : String) (secret : Secret)
    (hs : s.Secret = some name) (hg : env.getSecret name = .ok secret) :
    (secret UsernameSecretField = none → (injectSecret env w (some s)).2 = some s) ∧
    (∀ id, secret UsernameSecretField = some id → secret PasswordSecretField = none →
      (injectSecret env w (some s)).2 = some { s with APIId := some id }) := by
  constructor
  · intro hu
    simp [injectSecret, hs, hg, hu]
  · intro id hu hp
    simp [injectSecret, hs, hg, hu, hp]

/-- Witness of amended C4, at a secret holding only "password". -/
theorem injectSecret_fields_in_order_witness :
    (passwordOnly UsernameSecretField = none →
      (injectSecret { sampleEnv with getSecret := sampleStore passwordOnly } sampleWorld
        (some secretOnlySetting)).2 = some secretOnlySetting) ∧
    (∀ id, passwordOnly UsernameSecretField = some id →
      passwordOnly PasswordSecretField = none →
      (injectSecret { sampleEnv with getSecret := sampleStore passwordOnly } sampleWorld
        (some secretOnlySetting)).2 = some { secretOnlySetting with APIId := some id }) :=
  injectSecret_fields_in_order { sampleEnv with getSecret := sampleStore passwordOnly }
    sampleWorld secretOnlySetting "test-secret" passwordOnly rfl rfl

/-- C6: `injectSecret` returns normally and changes nothing when there is nothing to resolve.
For nil settings and for settings without a secret reference it returns with the world and
the settings as they were (no lookup is made); for settings whose secret lookup fails, the
settings afterwards equal the settings before, every field included. -/
theorem injectSecret_nothing_to_resolve (env : Env) (w : World) :
    injectSecret env w none = (w, none) ∧
    (∀ s : MinIOSetting, s.Secret = none → injectSecret env w (some s) = (w, some s)) ∧
    (∀ (s : MinIOSetting) (name e : String), s.Secret = some name →
      env.getSecret name = .error e →
      (injectSecret env w (some s)).2 = some s ∧
      (injectSecret env w (some s)).1.files = w.files) := by
  refine ⟨rfl, ?_, ?_⟩
  · intro s hs
    simp [injectSecret, hs]
  · intro s name e hs hg
    simp [injectSecret, hs, hg]

/-- Witness of C6: settings without a secret, and settings whose secret is not found. -/
theorem injectSecret_nothing_to_resolve_witness :
    injectSecret sampleEnv sampleWorld (some noSecretSetting) = (sampleWorld, some noSecretSetting) ∧
    (injectSecret sampleEnv sampleWorld
      (some { secretOnlySetting with Secret := some "missing" })).2
      = some { secretOnlySetting with Secret := some "missing" } :=
  ⟨(injectSecret_nothing_to_resolve sampleEnv sampleWorld).2.1 noSecretSetting rfl,
   ((injectSecret_nothing_to_resolve sampleEnv sampleWorld).2.2
     { secretOnlySetting with Secret := some "missing" } "missing" "secrets not found"
     rfl rfl).1⟩

/-! ## Request handler -/

/-- C7: a body that fails to decode is answered with status 400 and the body
"Unexpected end of JSON input\n"; the handler returns at once, leaving the filesystem and the
collaborator trace untouched (no secret lookup, no client construction, no upload). -/
theorem handler_rejects_undecodable_body (env : Env) (w : World) (body : Bytes) (e : String)
    (hd : env.unmarshal body = .error e) :
    (BindMinIOServiceHandler env w freshResponse (.ok body)).1 = w ∧
    (BindMinIOServiceHandler env w freshResponse (.ok body)).2.1
      = { status := some 400, body := "Unexpected end of JSON input\n" } ∧
    (BindMinIOServiceHandler env w freshResponse (.ok body)).2.2 = .ret () := by
  simp [BindMinIOServiceHandler, hd, httpError, freshResponse, StatusBadRequest]

/-- Witness of C7: the empty body. -/
theorem handler_rejects_undecodable_body_witness :
    (BindMinIOServiceHandler sampleEnv sampleWorld freshResponse (.ok [])).1 = sampleWorld ∧
    (BindMinIOServiceHandler sampleEnv sampleWorld freshResponse (.ok [])).2.1
      = { status := some 400, body := "Unexpected end of JSON input\n" } ∧
    (BindMinIOServiceHandler sampleEnv sampleWorld freshResponse (.ok [])).2.2 = .ret () :=
  handler_rejects_undecodable_body sampleEnv sampleWorld [] "unexpected end of JSON input" rfl


/-- C8, evaluated on the code: a decodable but incomplete request is not answered with a 400
response.  For the body `{}`, for settings naming the bucket only and for settings
without credentials the handler panics on a nil dereference and writes no response. -/
theorem handler_faults_on_incomplete_request :
    (BindMinIOServiceHandler sampleEnv sampleWorld freshResponse (.ok [123, 125])).2
      = (freshResponse, .fault nilDeref) ∧
    (BindMinIOServiceHandler { sampleEnv with unmarshal := fun _ => .ok bucketOnlyRequest }
        sampleWorld freshResponse (.ok [123, 125])).2 = (freshResponse, .fault nilDeref) ∧
    (BindMinIOServiceHandler { sampleEnv with unmarshal := fun _ => .ok noCredentialRequest }
        sampleWorld freshResponse (.ok [123, 125])).2 = (freshResponse, .fault nilDeref) := by
  decide

/-! ## Upload pipeline: the staging file -/

/-- C1, evaluated on the code: with the put refused, `uploadObject` returns the upload
error and the staging file `/tmp/data.bin42` it created is still on disk, holding the
payload. -/
theorem uploadObject_leaves_staging_file :
    sampleWorld.files "/tmp/data.bin42" = none ∧
    (uploadObject refusingEnv sampleWorld sampleClient "test-bucket" "data.bin" [65, 66]).2
      = .ret (some "Upload object error:connection refused") ∧
    (uploadObject refusingEnv sampleWorld sampleClient "test-bucket" "data.bin" [65, 66]).1.files
      "/tmp/data.bin42" = some [65, 66] := by
  decide

/-- C2, evaluated on the code: for the payload `test` the staged file is handed to the put
at position 4, its end; the stream the put reads is empty, not the payload. -/
theorem uploadObject_hands_over_exhausted_file :
    (uploadObject refusingEnv sampleWorld sampleClient "test-bucket" "data.bin"
        [116, 101, 115, 116]).1.trace
      = [Event.putObject ⟨"test-bucket", "data.bin", [], 4, "application/octet-stream"⟩] := by
  decide

/-- C3, evaluated on the code: a file that existed before the call at the path the object
key denotes is deleted by `uploadObject`, while the staging file stays. -/
theorem uploadObject_removes_object_key_path :
    sampleWorld.files "/work/report.bin" = some [1, 2, 3] ∧
    (uploadObject sampleEnv sampleWorld sampleClient "test-bucket" "report.bin" [65]).2
      = .ret none ∧
    (uploadObject sampleEnv sampleWorld sampleClient "test-bucket" "report.bin" [65]).1.files
      "/work/report.bin" = none ∧
    (uploadObject sampleEnv sampleWorld sampleClient "test-bucket" "report.bin" [65]).1.files
      "/tmp/report.bin42" = some [65] := by
  decide

/-! ## Upload pipeline: helper facts -/

/-- A successful run of the retry loop creates a fresh, empty file and opens it at position 0. -/
theorem createTempLoop_ok (env : Env) (w : World) (pre suf : String) :
    ∀ (fuel attempt : Nat) (w1 : World) (f : File),
      createTempLoop env w pre suf fuel attempt = .ok (w1, f) →
      w.files f.path = none ∧ w1.files f.path = some [] ∧ w1.trace = w.trace ∧ f.pos = 0 := by
  intro fuel
  induction fuel with
  | zero => intro attempt w1 f h; simp [createTempLoop] at h
  | succ n ih =>
    intro attempt w1 f h
    simp only [createTempLoop] at h
    split at h
    · exact ih _ _ _ h
    · rename_i hfree
      split at h
      · simp at h
      · simp only [Except.ok.injEq, Prod.mk.injEq] at h
        obtain ⟨hw, hf⟩ := h
        subst hw; subst hf
        simp [hfree]

/-- A successful `os.CreateTemp` creates a fresh, empty file and opens it at position 0. -/
theorem osCreateTemp_ok (env : Env) (w w1 : World) (dir pattern : String) (f : File)
    (h : osCreateTemp env w dir pattern = .ok (w1, f)) :
    w.files f.path = none ∧ w1.files f.path = some [] ∧ w1.trace = w.trace ∧ f.pos = 0 := by
  simp only [osCreateTemp] at h
  split at h
  · simp at h
  · exact createTempLoop_ok env w _ _ _ _ _ _ h

/-- Removing a file leaves the collaborator trace alone. -/
theorem osRemove_trace (env : Env) (w : World) (name : String) :
    (osRemove env w name).1.trace = w.trace := by
  unfold osRemove
  split
  · rfl
  · split
    · rfl
    · split <;> rfl

/-- The deferred closure leaves the collaborator trace alone. -/
theorem uploadObjectDeferred_trace (env : Env) (w : World) (name : String)
    (err : Option String) :
    (uploadObjectDeferred env w name err).1.trace = w.trace := by
  have hr := osRemove_trace env w name
  rcases hrem : osRemove env w name with ⟨w2, _ | e⟩ <;> rw [hrem] at hr <;>
    cases hc : env.closeFault <;> cases err <;>
    simp [uploadObjectDeferred, hrem, hc] <;> exact hr

/-- With a non-nil `err`, the deferred closure does not panic. -/
theorem uploadObjectDeferred_of_err (env : Env) (w : World) (name e : String) :
    (uploadObjectDeferred env w name (some e)).2 = none := by
  rcases hrem : osRemove env w name with ⟨w2, _ | e2⟩ <;>
    cases hc : env.closeFault <;> simp [uploadObjectDeferred, hrem, hc]

/-- Returning through the deferred closure leaves the collaborator trace alone. -/
theorem uploadObjectReturn_trace (env : Env) (w : World) (name : String)
    (err result : Option String) :
    (uploadObjectReturn env w name err result).1.trace = w.trace := by
  have hd := uploadObjectDeferred_trace env w name err
  rcases hdef : uploadObjectDeferred env w name err with ⟨w2, _ | m⟩ <;> rw [hdef] at hd <;>
    simp [uploadObjectReturn, hdef] <;> exact hd

/-- With a non-nil `err`, the deferred closure does not panic: the function returns. -/
theorem uploadObjectReturn_of_err (env : Env) (w : World) (name e : String)
    (result : Option String) :
    (uploadObjectReturn env w name (some e) result).2 = .ret result := by
  have hd := uploadObjectDeferred_of_err env w name e
  rcases hdef : uploadObjectDeferred env w name (some e) with ⟨w2, _ | m⟩ <;>
    rw [hdef] at hd <;> simp [uploadObjectReturn, hdef] at hd ⊢

/-- Two strings that differ within their fixed heads differ whatever is appended. -/
theorem append_ne_of_take_ne (a b e1 e2 : String) (n : Nat)
    (ha : n ≤ a.data.length) (hb : n ≤ b.data.length)
    (h : a.data.take n ≠ b.data.take n) : a ++ e1 ≠ b ++ e2 := by
  intro heq
  have h1 := congrArg (fun s : String => s.data.take n) heq
  simp only [String.data_append] at h1
  rw [List.take_append_of_le_length ha, List.take_append_of_le_length hb] at h1
  exact h h1

/-- Messages of different steps are different strings, whatever the descriptions. -/
theorem stageMessage_ne (s1 s2 : Stage) (e1 e2 : String) (h : s1 ≠ s2) :
    stageMessage s1 e1 ≠ stageMessage s2 e2 := by
  cases s1 <;> cases s2 <;> first
    | exact absurd rfl h
    | exact append_ne_of_take_ne _ _ e1 e2 9 (by decide) (by decide) (by decide)

/-- The step that fails first decides what `uploadObject` returns. -/
theorem uploadObject_failure (env : Env) (w : World) (client : Client)
    (bucket fileName : String) (content : Bytes) (s : Stage) (e : String)
    (h : firstFailure env w fileName = some (s, e)) :
    (uploadObject env w client bucket fileName content).2 = .ret (some (stageMessage s e)) := by
  unfold firstFailure at h
  unfold uploadObject
  cases hc : osCreateTemp env w "" fileName with
  | error e0 =>
    simp only [hc, Option.some.injEq, Prod.mk.injEq] at h
    obtain ⟨h1, h2⟩ := h
    subst h1; subst h2
    rfl
  | ok r =>
    obtain ⟨w1, f⟩ := r
    simp only [hc] at h
    cases hw : env.writeFault with
    | some ne =>
      obtain ⟨n, e0⟩ := ne
      simp only [hw, Option.some.injEq, Prod.mk.injEq] at h
      obtain ⟨h1, h2⟩ := h
      subst h1; subst h2
      simp [osWrite, hw, uploadObjectReturn_of_err, stageMessage]
    | none =>
      simp only [hw] at h
      cases hs : env.statFault with
      | some e0 =>
        simp only [hs, Option.some.injEq, Prod.mk.injEq] at h
        obtain ⟨h1, h2⟩ := h
        subst h1; subst h2
        simp [osWrite, hw, osStat, hs, uploadObjectReturn_of_err, stageMessage]
      | none =>
        simp only [hs] at h
        cases hp : env.putFault with
        | some e0 =>
          simp only [hp, Option.some.injEq, Prod.mk.injEq] at h
          obtain ⟨h1, h2⟩ := h
          subst h1; subst h2
          simp [osWrite, hw, osStat, hs, putObject, hp, uploadObjectReturn_of_err, stageMessage]
        | none => simp [hp] at h

/-- When no step fails, all four steps succeeded. -/
theorem firstFailure_none (env : Env) (w : World) (fileName : String)
    (h : firstFailure env w fileName = none) :
    (∃ w1 f, osCreateTemp env w "" fileName = .ok (w1, f)) ∧
      env.writeFault = none ∧ env.statFault = none ∧ env.putFault = none := by
  unfold firstFailure at h
  cases hc : osCreateTemp env w "" fileName with
  | error e0 => simp [hc] at h
  | ok r =>
    obtain ⟨w1, f⟩ := r
    simp only [hc] at h
    cases hw : env.writeFault with
    | some ne => simp [hw] at h
    | none =>
      cases hs : env.statFault with
      | some e0 => simp [hw, hs] at h
      | none =>
        cases hp : env.putFault with
        | some e0 => simp [hw, hs, hp] at h
        | none => exact ⟨⟨w1, f, rfl⟩, rfl, rfl, rfl⟩

/-! ## Upload pipeline: error reporting and the put call -/

/-- C9: the four failure modes of `uploadObject` are surfaced as distinct, description-bearing
errors.  Two runs whose first failing steps differ both return an error; each message ends
with the description of its underlying error, and the two messages are different strings
whatever the descriptions.  And a nil error is returned only when creation, write, stat and
put all succeeded. -/
theorem uploadObject_errors_distinct :
    (∀ (envA envB : Env) (wA wB : World) (clientA clientB : Client)
        (bucketA bucketB fileA fileB : String) (contentA contentB : Bytes)
        (sA sB : Stage) (eA eB : String),
      firstFailure envA wA fileA = some (sA, eA) →
      firstFailure envB wB fileB = some (sB, eB) →
      sA ≠ sB →
      ∃ mA mB,
        (uploadObject envA wA clientA bucketA fileA contentA).2 = .ret (some mA) ∧
        (uploadObject envB wB clientB bucketB fileB contentB).2 = .ret (some mB) ∧
        (∃ p, mA = p ++ eA) ∧ (∃ p, mB = p ++ eB) ∧ mA ≠ mB) ∧
    (∀ (env : Env) (w : World) (client : Client) (bucket fileName : String) (content : Bytes),
      (uploadObject env w client bucket fileName content).2 = .ret none →
      (∃ w1 f, osCreateTemp env w "" fileName = .ok (w1, f)) ∧
        env.writeFault = none ∧ env.statFault = none ∧ env.putFault = none) := by
  constructor
  · intro envA envB wA wB clientA clientB bucketA bucketB fileA fileB contentA contentB
      sA sB eA eB hA hB hne
    refine ⟨stageMessage sA eA, stageMessage sB eB,
      uploadObject_failure envA wA clientA bucketA fileA contentA sA eA hA,
      uploadObject_failure envB wB clientB bucketB fileB contentB sB eB hB,
      ?_, ?_, stageMessage_ne sA sB eA eB hne⟩
    · cases sA <;> exact ⟨_, rfl⟩
    · cases sB <;> exact ⟨_, rfl⟩
  · intro env w client bucket fileName content h
    cases hf : firstFailure env w fileName with
    | none => exact firstFailure_none env w fileName hf
    | some se =>
      obtain ⟨s, e⟩ := se
      rw [uploadObject_failure env w client bucket fileName content s e hf] at h
      simp at h

/-- Witness of C9: a creation failure against a write failure with the same description
length, and a successful run. -/
theorem uploadObject_errors_distinct_witness :
    (∃ mA mB,
      (uploadObject sampleEnv sampleWorld sampleClient "test-bucket" "a/b" [65]).2
        = .ret (some mA) ∧
      (uploadObject diskFullEnv sampleWorld sampleClient "test-bucket" "data.bin" [65, 66]).2
        = .ret (some mB) ∧
      (∃ p, mA = p ++ "createtemp a/b: pattern contains path separator") ∧
      (∃ p, mB = p ++ "no space left on device") ∧ mA ≠ mB) ∧
    ((∃ w1 f, osCreateTemp sampleEnv sampleWorld "" "report.bin" = .ok (w1, f)) ∧
      sampleEnv.writeFault = none ∧ sampleEnv.statFault = none ∧ sampleEnv.putFault = none) :=
  ⟨uploadObject_errors_distinct.1 sampleEnv diskFullEnv sampleWorld sampleWorld sampleClient
      sampleClient "test-bucket" "test-bucket" "a/b" "data.bin" [65] [65, 66]
      Stage.create Stage.write "createtemp a/b: pattern contains path separator"
      "no space left on device" (by decide) (by decide) (by decide),
   uploadObject_errors_distinct.2 sampleEnv sampleWorld sampleClient "test-bucket" "report.bin"
      [65] (by decide)⟩

/-- C10: when staging succeeds (create, write and stat), `uploadObject` makes exactly one
call to the put operation, with the bucket and key it was given, a declared length equal to
the payload length and the content type "application/octet-stream". -/
theorem uploadObject_put_call (env : Env) (w w1 : World) (f : File) (client : Client)
    (bucket fileName : String) (content : Bytes)
    (hc : osCreateTemp env w "" fileName = .ok (w1, f))
    (hw : env.writeFault = none) (hs : env.statFault = none) :
    ∃ stream, (uploadObject env w client bucket fileName content).1.trace
      = w.trace ++ [Event.putObject
          ⟨bucket, fileName, stream, content.length, "application/octet-stream"⟩] := by
  obtain ⟨-, hempty, htrace, hpos⟩ := osCreateTemp_ok env w w1 "" fileName f hc
  refine ⟨[], ?_⟩
  unfold uploadObject
  cases hp : env.putFault <;>
    simp [hc, osWrite, hw, osStat, hs, putObject, hp, uploadObjectReturn_trace, readable,
      hempty, hpos, writeAt, htrace]

/-- Witness of C10: the empty payload is put with declared length 0. -/
theorem uploadObject_put_call_witness :
    ∃ stream, (uploadObject refusingEnv sampleWorld sampleClient "test-bucket" "data.bin"
        []).1.trace
      = sampleWorld.trace ++ [Event.putObject
          ⟨"test-bucket", "data.bin", stream, ([] : Bytes).length,
            "application/octet-stream"⟩] :=
  uploadObject_put_call refusingEnv sampleWorld
    { sampleWorld with
      files := fun p => if p = "/tmp/data.bin42" then some [] else sampleWorld.files p }
    { path := "/tmp/data.bin42", pos := 0 } sampleClient "test-bucket" "data.bin" []
    rfl rfl rfl

end Shifu.Minio
